import Mathlib

/-!
Shallow embedding of the Data Dash core: the schema normalizer (`src/load.py`,
`prepare_data` / `filter_data` / `get_filter_options`) and the metrics
aggregator (`src/metrics.py`, `calculate_kpis` / `calculate_monthly_metrics` /
`get_breakdown` / `get_items_by_return_rate`).

Modelling conventions:
* pandas float scalars are modelled by `PFloat` (an exact rational, NaN, or a
  signed infinity); division, mean, `* 100` and `round(2)` follow the pandas
  behaviour at zero denominators and on empty series.
* a prepared dataframe is a list of rows of canonical fields plus a set of
  boolean column-presence flags; "`'_x' in df.columns`" becomes a flag test.
  Raw (non-canonical) columns are carried only by the raw dataset; the metrics
  layer of the source touches canonical columns exclusively.
* `pd.to_datetime` / `pd.to_numeric` / `to_period('M')` are library
  primitives, passed in as parameters of the normalizer (`PandasPrims`); the
  normalizer's own contribution (coercion defaults, `fillna(0)`, `astype(str)`,
  the `_returned` membership test) is modelled concretely.
* `groupby(col).agg(...)` is modelled by listing the sorted distinct keys and,
  for each key, aggregating over the rows whose key matches (pandas groups by
  sorted key order); `nunique` is the length of the deduplicated value list.
* the derived `_year`/`_month`/`_quarter` columns of `prepare_data` are not
  used by any verified function and are omitted from the row model.
-/

/-- Model of a pandas float scalar: a finite rational, NaN, or a signed infinity. -/
inductive PFloat where
  | fin (q : ℚ)
  | nan
  | pinf
  | ninf
deriving DecidableEq, Repr

/-- Pandas/IEEE division of finite scalars: a zero denominator gives NaN (for 0/0)
or a signed infinity; otherwise the exact quotient. -/
def pdiv (a b : ℚ) : PFloat :=
  if b = 0 then (if a = 0 then PFloat.nan else if 0 < a then PFloat.pinf else PFloat.ninf)
  else PFloat.fin (a / b)

/-- Multiplication by the positive constant 100, preserving NaN and the infinities. -/
def pmul100 : PFloat → PFloat
  | PFloat.fin q => PFloat.fin (q * 100)
  | PFloat.nan => PFloat.nan
  | PFloat.pinf => PFloat.pinf
  | PFloat.ninf => PFloat.ninf

/-- pandas `Series.mean()`: NaN on an empty series, else the exact average. -/
def pmean (l : List ℚ) : PFloat :=
  if l.isEmpty then PFloat.nan else PFloat.fin (l.sum / (l.length : ℚ))

/-- numpy round-half-to-even at two decimal places, on exact rationals. -/
def rnd2 (q : ℚ) : ℚ :=
  let y := q * 100
  let f := ⌊y⌋
  let r : ℤ :=
    if (1 : ℚ) / 2 < y - f then f + 1
    else if y - f < (1 : ℚ) / 2 then f
    else if f % 2 = 0 then f else f + 1
  (r : ℚ) / 100

/-- `Series.round(2)`: NaN and the infinities round to themselves. -/
def pround2 : PFloat → PFloat
  | PFloat.fin q => PFloat.fin (rnd2 q)
  | x => x

/-- Code-point lexicographic order on character lists, as used by Python's
`sorted` and `str` comparison on strings. -/
def lexLe : List Char → List Char → Bool
  | [], _ => true
  | _ :: _, [] => false
  | a :: as, b :: bs =>
    if a.toNat < b.toNat then true
    else if b.toNat < a.toNat then false
    else lexLe as bs

/-- Python string comparison `a <= b` (code-point lexicographic). -/
def strLe (a b : String) : Bool := lexLe a.data b.data

/-- Python `str.lower()` (character-wise lowercasing). -/
def lowerStr (s : String) : String := ⟨s.data.map Char.toLower⟩

/-- A raw cell value: null (NaN), a string, or a number. -/
inductive Cell where
  | null
  | str (s : String)
  | num (q : ℚ)
deriving DecidableEq, Repr

/-- Python `astype(str)` of a cell; pandas renders a null as the string "nan". -/
def stringifyCell : Cell → String
  | Cell.null => "nan"
  | Cell.str s => s
  | Cell.num q => toString q

/-- One row of a prepared (canonical) dataframe. A field is meaningful only when
the corresponding column-presence flag of the dataframe is set; `date` is the
parsed timestamp (`none` = NaT) and `year_month` the `to_period('M')` bucket key. -/
structure Row where
  date : Option ℤ
  year_month : String
  sales : ℚ
  profit : ℚ
  quantity : ℚ
  discount : ℚ
  category : String
  customer : String
  order_id : String
  region : String
  segment : String
  product : String
  returned : Bool
deriving DecidableEq, Repr

/-- Column-presence flags of a prepared dataframe: `date = true` models
"`'_date' in df.columns`", and so on for the other canonical columns. -/
structure Cols where
  date : Bool
  sales : Bool
  profit : Bool
  quantity : Bool
  discount : Bool
  category : Bool
  customer : Bool
  order_id : Bool
  region : Bool
  segment : Bool
  product : Bool
  returned : Bool
deriving DecidableEq, Repr

/-- A prepared dataframe: presence flags for the canonical columns plus the rows. -/
structure DataFrame where
  cols : Cols
  rows : List Row
deriving DecidableEq, Repr

/-- An all-absent presence-flag value used to build concrete flag sets. -/
def cols0 : Cols :=
  { date := false, sales := false, profit := false, quantity := false,
    discount := false, category := false, customer := false, order_id := false,
    region := false, segment := false, product := false, returned := false }

/-- A default row value used to build concrete rows field-by-field. -/
def row0 : Row :=
  { date := none, year_month := "", sales := 0, profit := 0, quantity := 0,
    discount := 0, category := "", customer := "", order_id := "", region := "",
    segment := "", product := "", returned := false }

/-- The column-role mapping: each role optionally names a raw column. -/
structure Mapping where
  date : Option String
  sales : Option String
  profit : Option String
  quantity : Option String
  discount : Option String
  category : Option String
  customer : Option String
  order_id : Option String
  region : Option String
  segment : Option String
  product : Option String
  returned : Option String
deriving DecidableEq, Repr

/-- The pandas parsing primitives used by `prepare_data`, taken as parameters:
`toDatetime` is `pd.to_datetime(·, errors='coerce')` (failure = `none`),
`periodM` is `dt.to_period('M').astype(str)` on a parsed timestamp, and
`toNumeric` is `pd.to_numeric(·, errors='coerce')` (failure = `none`). -/
structure PandasPrims where
  toDatetime : Cell → Option ℤ
  periodM : ℤ → String
  toNumeric : Cell → Option ℚ

/-- A raw row: an association of raw column names to cells. -/
abbrev RawRow := List (String × Cell)

/-- Reading a named raw column from a raw row. -/
def getCol (rr : RawRow) (c : String) : Cell :=
  (rr.lookup c).getD Cell.null

/-- The values accepted (after stringify + lowercase) as a true returned flag,
from `prepare_data`: `isin(['yes', 'true', '1', 'returned'])`. -/
def returnedTrueValues : List String := ["yes", "true", "1", "returned"]

/-- The per-row part of `prepare_data` (load.py lines 39-89): each canonical
field is derived from its own mapped raw column; numeric coercion failures
become 0 (`fillna(0)`), date failures become NaT, string roles are stringified,
and `_returned` is the case-insensitive membership test. -/
def prepRow (P : PandasPrims) (m : Mapping) (rr : RawRow) : Row :=
  let dt : Option ℤ := match m.date with
    | some c => P.toDatetime (getCol rr c)
    | none => none
  { date := dt,
    year_month := match m.date with
      | some _ => (match dt with | some t => P.periodM t | none => "NaT")
      | none => "",
    sales := match m.sales with
      | some c => (P.toNumeric (getCol rr c)).getD 0
      | none => 0,
    profit := match m.profit with
      | some c => (P.toNumeric (getCol rr c)).getD 0
      | none => 0,
    quantity := match m.quantity with
      | some c => (P.toNumeric (getCol rr c)).getD 0
      | none => 0,
    discount := match m.discount with
      | some c => (P.toNumeric (getCol rr c)).getD 0
      | none => 0,
    category := match m.category with
      | some c => stringifyCell (getCol rr c)
      | none => "",
    customer := match m.customer with
      | some c => stringifyCell (getCol rr c)
      | none => "",
    order_id := match m.order_id with
      | some c => stringifyCell (getCol rr c)
      | none => "",
    region := match m.region with
      | some c => stringifyCell (getCol rr c)
      | none => "",
    segment := match m.segment with
      | some c => stringifyCell (getCol rr c)
      | none => "",
    product := match m.product with
      | some c => stringifyCell (getCol rr c)
      | none => "",
    returned := match m.returned with
      | some c => returnedTrueValues.contains (lowerStr (stringifyCell (getCol rr c)))
      | none => false }

/-- `prepare_data` (load.py lines 27-89): a canonical column exists iff its role
is mapped, and each canonical value is derived row-wise from the mapped column. -/
def prepare_data (P : PandasPrims) (raw : List RawRow) (m : Mapping) : DataFrame :=
  { cols :=
      { date := m.date.isSome, sales := m.sales.isSome, profit := m.profit.isSome,
        quantity := m.quantity.isSome, discount := m.discount.isSome,
        category := m.category.isSome, customer := m.customer.isSome,
        order_id := m.order_id.isSome, region := m.region.isSome,
        segment := m.segment.isSome, product := m.product.isSome,
        returned := m.returned.isSome },
    rows := raw.map (prepRow P m) }

/-- `filtered['_date'] >= start_dt` on one row: a null date (NaT) compares false. -/
def geStart (s : ℤ) (r : Row) : Bool :=
  match r.date with
  | some d => s ≤ d
  | none => false

/-- `filtered['_date'] <= end_dt` on one row: a null date (NaT) compares false. -/
def leEnd (e : ℤ) (r : Row) : Bool :=
  match r.date with
  | some d => d ≤ e
  | none => false

/-- Python truthiness of the optional allow-list arguments of `filter_data`:
`categories and len(categories) > 0` is false for `None` and for `[]`. -/
def listTruthy : Option (List String) → Bool
  | some l => !l.isEmpty
  | none => false

/-- The `start_date` narrowing step of `filter_data` (load.py lines 107-109):
applied only when the bound is given and `_date` exists. -/
def dateStartStage (hasDate : Bool) (sd : Option ℤ) (rows : List Row) : List Row :=
  match sd with
  | some s => if hasDate then rows.filter (geStart s) else rows
  | none => rows

/-- The `end_date` narrowing step of `filter_data` (load.py lines 111-113). -/
def dateEndStage (hasDate : Bool) (ed : Option ℤ) (rows : List Row) : List Row :=
  match ed with
  | some e => if hasDate then rows.filter (leEnd e) else rows
  | none => rows

/-- One allow-list narrowing step of `filter_data` (load.py lines 116-123):
applied only when the list is truthy and the column exists; kept rows are the
ones whose value is in the list (`isin`). -/
def allowStage (hasCol : Bool) (sel : Option (List String)) (get : Row → String)
    (rows : List Row) : List Row :=
  if listTruthy sel && hasCol then
    rows.filter (fun r => (sel.getD []).contains (get r))
  else rows

/-- `filter_data` (load.py lines 92-125): sequential narrowing by inclusive date
bounds and by the three allow-lists, in source order. -/
def filter_data (df : DataFrame) (start_date end_date : Option ℤ)
    (categories regions segments : Option (List String)) : DataFrame :=
  { cols := df.cols,
    rows := allowStage df.cols.segment segments Row.segment
      (allowStage df.cols.region regions Row.region
        (allowStage df.cols.category categories Row.category
          (dateEndStage df.cols.date end_date
            (dateStartStage df.cols.date start_date df.rows)))) }

/-- `sorted(...)` on a list of strings: stable ascending sort by code-point order. -/
def sortStr (l : List String) : List String :=
  List.insertionSort (fun a b => strLe a b = true) l

/-- `Series.nunique()`: the number of distinct values. -/
def nunique (l : List String) : ℕ :=
  l.dedup.length

/-- The result of `get_filter_options`: min/max parsed date, the sorted distinct
dimension domains, and the per-role availability flags. -/
structure FilterOptions where
  min_date : Option ℤ
  max_date : Option ℤ
  categories : List String
  regions : List String
  segments : List String
  has_date : Bool
  has_category : Bool
  has_region : Bool
  has_segment : Bool
  has_profit : Bool
  has_quantity : Bool
  has_customer : Bool
  has_order_id : Bool
  has_product : Bool
  has_returned : Bool
  has_discount : Bool
deriving DecidableEq, Repr

/-- `get_filter_options` (load.py lines 128-167): availability flags are column
presence; min/max date come from the non-null parsed dates when any exist; the
domains are `sorted(column.dropna().unique())` — on the canonical string-typed
columns `dropna()` is the identity, so the distinct stringified values are
deduplicated and sorted. -/
def get_filter_options (df : DataFrame) : FilterOptions :=
  { min_date := if df.cols.date then (df.rows.filterMap Row.date).min? else none,
    max_date := if df.cols.date then (df.rows.filterMap Row.date).max? else none,
    categories := if df.cols.category then sortStr (df.rows.map Row.category).dedup else [],
    regions := if df.cols.region then sortStr (df.rows.map Row.region).dedup else [],
    segments := if df.cols.segment then sortStr (df.rows.map Row.segment).dedup else [],
    has_date := df.cols.date,
    has_category := df.cols.category,
    has_region := df.cols.region,
    has_segment := df.cols.segment,
    has_profit := df.cols.profit,
    has_quantity := df.cols.quantity,
    has_customer := df.cols.customer,
    has_order_id := df.cols.order_id,
    has_product := df.cols.product,
    has_returned := df.cols.returned,
    has_discount := df.cols.discount }

/-- The KPI dictionary of `calculate_kpis` (metrics.py lines 21-31): the dict
literal fixes exactly these nine keys, initialised to zero defaults with
`row_count = len(df)`; the later lines only reassign existing keys. -/
structure KPIs where
  total_sales : ℚ
  total_profit : ℚ
  total_orders : ℕ
  total_customers : ℕ
  total_quantity : ℚ
  avg_order_value : ℚ
  profit_margin : ℚ
  avg_discount : PFloat
  row_count : ℕ
deriving DecidableEq, Repr

/-- `calculate_kpis` (metrics.py lines 10-58). Each field keeps its zero default
unless its guarding column-presence / positivity test fires, mirroring the
sequential dict updates of the source; the `options` argument is accepted and,
as in the source, never read. -/
def calculate_kpis (df : DataFrame) (options : FilterOptions) : KPIs :=
  let total_sales : ℚ := if df.cols.sales then (df.rows.map Row.sales).sum else 0
  let total_profit : ℚ := if df.cols.profit then (df.rows.map Row.profit).sum else 0
  let profit_margin : ℚ :=
    if df.cols.profit then
      (if 0 < total_sales then total_profit / total_sales * 100 else 0)
    else 0
  let total_orders : ℕ :=
    if df.cols.order_id then nunique (df.rows.map Row.order_id) else df.rows.length
  let total_customers : ℕ :=
    if df.cols.customer then nunique (df.rows.map Row.customer) else 0
  let total_quantity : ℚ := if df.cols.quantity then (df.rows.map Row.quantity).sum else 0
  let avg_order_value : ℚ :=
    if 0 < total_orders then total_sales / (total_orders : ℚ) else 0
  let avg_discount : PFloat :=
    if df.cols.discount then pmul100 (pmean (df.rows.map Row.discount)) else PFloat.fin 0
  { total_sales := total_sales, total_profit := total_profit,
    total_orders := total_orders, total_customers := total_customers,
    total_quantity := total_quantity, avg_order_value := avg_order_value,
    profit_margin := profit_margin, avg_discount := avg_discount,
    row_count := df.rows.length }

/-- pandas `groupby(col)`: the sorted distinct keys, each paired with the rows
whose key matches (aggregation is then applied per group). -/
def groupbyKey (rows : List Row) (key : Row → String) : List (String × List Row) :=
  (sortStr (rows.map key).dedup).map
    (fun k => (k, rows.filter (fun r => key r == k)))

/-- The dimension argument of the generic group-by metrics (`group_col` in the
source, one of the canonical string columns). -/
inductive Dim where
  | category
  | region
  | segment
  | product
  | customer
deriving DecidableEq, Repr

/-- Reading the canonical column selected by a dimension from a row. -/
def dimGet : Dim → Row → String
  | Dim.category => Row.category
  | Dim.region => Row.region
  | Dim.segment => Row.segment
  | Dim.product => Row.product
  | Dim.customer => Row.customer

/-- `group_col in df.columns` for a dimension. -/
def dimHas : Dim → Cols → Bool
  | Dim.category => Cols.category
  | Dim.region => Cols.region
  | Dim.segment => Cols.segment
  | Dim.product => Cols.product
  | Dim.customer => Cols.customer

/-- One output row of `get_breakdown`: per-group aggregates; a field is `none`
when its source column is absent (the corresponding dataframe column is never
created). -/
structure BRow where
  name : String
  sales : ℚ
  profit : Option ℚ
  quantity : Option ℚ
  orders : Option ℕ
  customers : Option ℕ
  margin : Option PFloat
  aov : Option PFloat
deriving DecidableEq, Repr

/-- The descending-by-sales order used by `sort_values('Sales', ascending=False)`. -/
def salesGeB (a b : BRow) : Prop := b.sales ≤ a.sales

instance : DecidableRel salesGeB := fun a b => inferInstanceAs (Decidable (b.sales ≤ a.sales))

/-- `get_breakdown` (metrics.py lines 158-200): group by the dimension, sum
sales (and profit/quantity when present), count distinct orders/customers when
present, then derive per-group profit margin `(Profit / Sales * 100).round(2)`
when profit exists and per-group `(Sales / Orders).round(2)` when orders exist,
finally sorting descending by sales. -/
def get_breakdown (df : DataFrame) (col : Dim) (col_name : String) : Option (List BRow) :=
  if !(dimHas col df.cols && df.cols.sales) then none
  else
    let items := (groupbyKey df.rows (dimGet col)).map (fun p =>
      let s : ℚ := (p.2.map Row.sales).sum
      let prof : ℚ := (p.2.map Row.profit).sum
      let ords : ℕ := nunique (p.2.map Row.order_id)
      { name := p.1,
        sales := s,
        profit := if df.cols.profit then some prof else none,
        quantity := if df.cols.quantity then some ((p.2.map Row.quantity).sum) else none,
        orders := if df.cols.order_id then some ords else none,
        customers := if df.cols.customer then some (nunique (p.2.map Row.customer)) else none,
        margin := if df.cols.profit then some (pround2 (pmul100 (pdiv prof s))) else none,
        aov := if df.cols.order_id then some (pround2 (pdiv s (ords : ℚ))) else none })
    some (List.insertionSort salesGeB items)

/-- One output row of `calculate_monthly_metrics`: the per-bucket aggregates and
the period-over-period percentage changes (NaN for the first bucket, pandas
`pct_change`). -/
structure MRow where
  month : String
  sales : ℚ
  profit : Option ℚ
  orders : Option ℕ
  quantity : Option ℚ
  sales_change : PFloat
  profit_change : Option PFloat
deriving DecidableEq, Repr

/-- The ascending-by-month order used by `sort_values('Month')`. -/
def monthLeM (a b : MRow) : Prop := strLe a.month b.month = true

instance : DecidableRel monthLeM := fun a b => inferInstanceAs (Decidable (strLe a.month b.month = true))

/-- pandas `pct_change() * 100` attached to consecutive buckets: the first
bucket (no predecessor) gets NaN; a zero previous value gives NaN or a signed
infinity, per float division. -/
def setChanges : Option MRow → List MRow → List MRow
  | _, [] => []
  | prev, b :: rest =>
    { b with
      sales_change := match prev with
        | none => PFloat.nan
        | some p => pmul100 (pdiv (b.sales - p.sales) p.sales),
      profit_change := match b.profit with
        | none => none
        | some x => some (match prev with
            | none => PFloat.nan
            | some p => match p.profit with
              | some y => pmul100 (pdiv (x - y) y)
              | none => PFloat.nan) } :: setChanges (some b) rest

/-- `calculate_monthly_metrics` (metrics.py lines 61-98): `None` unless both the
year-month bucket key (present iff the date role is mapped) and sales exist;
otherwise group by the bucket key, sum sales (and profit/quantity when
present), count distinct orders only when the order column exists (no row-count
fallback is taken), sort ascending by month and attach the percentage changes. -/
def calculate_monthly_metrics (df : DataFrame) : Option (List MRow) :=
  if !(df.cols.date && df.cols.sales) then none
  else
    let base := (groupbyKey df.rows (fun r => r.year_month)).map (fun p =>
      { month := p.1,
        sales := (p.2.map Row.sales).sum,
        profit := if df.cols.profit then some ((p.2.map Row.profit).sum) else none,
        orders := if df.cols.order_id then some (nunique (p.2.map Row.order_id)) else none,
        quantity := if df.cols.quantity then some ((p.2.map Row.quantity).sum) else none,
        sales_change := PFloat.nan,
        profit_change := none })
    some (setChanges none (List.insertionSort monthLeM base))

/-- Descending float order with NaN placed last, as used by pandas
`sort_values(ascending=False)` (default `na_position='last'`). -/
def PFloat.dge : PFloat → PFloat → Bool
  | _, PFloat.nan => true
  | PFloat.nan, _ => false
  | PFloat.pinf, _ => true
  | _, PFloat.pinf => false
  | _, PFloat.ninf => true
  | PFloat.ninf, _ => false
  | PFloat.fin a, PFloat.fin b => b ≤ a

/-- One output row of `get_items_by_return_rate`: the per-group return count,
order total (distinct orders, or group row count when the order column is
absent), optional sales/profit sums, and the rounded per-group return rate. -/
structure RRow where
  name : String
  returns : ℕ
  total_orders : ℕ
  sales : Option ℚ
  profit : Option ℚ
  rate : PFloat
deriving DecidableEq, Repr

/-- The descending-by-return-rate order used by
`sort_values('Return Rate', ascending=False)`. -/
def rateGeR (a b : RRow) : Prop := PFloat.dge a.rate b.rate = true

instance : DecidableRel rateGeR := fun a b => inferInstanceAs (Decidable (PFloat.dge a.rate b.rate = true))

/-- `get_items_by_return_rate` (metrics.py lines 288-324): `None` unless the
dimension and the returned flag exist; per group, `Returns` is the sum of the
boolean flags (count of returned rows), `Total Orders` is the distinct order
count or — when the order column is absent — the per-group row count, the rate
is `(Returns / Total Orders * 100).round(2)`; groups with zero returns are
dropped, the rest sorted descending by rate and truncated to the top `n`. -/
def get_items_by_return_rate (df : DataFrame) (col : Dim) (col_name : String)
    (n : ℕ) : Option (List RRow) :=
  if !(dimHas col df.cols && df.cols.returned) then none
  else
    let items := (groupbyKey df.rows (dimGet col)).map (fun p =>
      let ret : ℕ := (p.2.filter (fun r => r.returned)).length
      let tot : ℕ := if df.cols.order_id then nunique (p.2.map Row.order_id) else p.2.length
      { name := p.1,
        returns := ret,
        total_orders := tot,
        sales := if df.cols.sales then some ((p.2.map Row.sales).sum) else none,
        profit := if df.cols.profit then some ((p.2.map Row.profit).sum) else none,
        rate := pround2 (pmul100 (pdiv (ret : ℚ) (tot : ℚ))) })
    let withReturns := items.filter (fun it => 0 < it.returns)
    some ((List.insertionSort rateGeR withReturns).take n)

theorem lexLe_total : ∀ (a b : List Char), lexLe a b = true ∨ lexLe b a = true
  | [], _ => Or.inl rfl
  | _ :: _, [] => Or.inr rfl
  | a :: as, b :: bs => by
    by_cases h1 : a.toNat < b.toNat
    · left; simp [lexLe, h1]
    · by_cases h2 : b.toNat < a.toNat
      · right; simp [lexLe, h2]
      · cases lexLe_total as bs with
        | inl h => left; simp [lexLe, h1, h2, h]
        | inr h => right; simp [lexLe, h1, h2, h]

theorem lexLe_trans : ∀ (a b c : List Char),
    lexLe a b = true → lexLe b c = true → lexLe a c = true
  | [], _, _, _, _ => rfl
  | _ :: _, [], _, h, _ => by simp [lexLe] at h
  | _ :: _, _ :: _, [], _, h => by simp [lexLe] at h
  | a :: as, b :: bs, c :: cs, hab, hbc => by
    have Hab : a.toNat < b.toNat ∨ (a.toNat = b.toNat ∧ lexLe as bs = true) := by
      by_cases h1 : a.toNat < b.toNat
      · exact Or.inl h1
      · by_cases h2 : b.toNat < a.toNat
        · simp [lexLe, h1, h2] at hab
        · exact Or.inr ⟨by omega, by simpa [lexLe, h1, h2] using hab⟩
    have Hbc : b.toNat < c.toNat ∨ (b.toNat = c.toNat ∧ lexLe bs cs = true) := by
      by_cases h1 : b.toNat < c.toNat
      · exact Or.inl h1
      · by_cases h2 : c.toNat < b.toNat
        · simp [lexLe, h1, h2] at hbc
        · exact Or.inr ⟨by omega, by simpa [lexLe, h1, h2] using hbc⟩
    rcases Hab with h1 | ⟨h1, hrec1⟩ <;> rcases Hbc with h2 | ⟨h2, hrec2⟩
    · simp [lexLe, show a.toNat < c.toNat by omega]
    · simp [lexLe, show a.toNat < c.toNat by omega]
    · simp [lexLe, show a.toNat < c.toNat by omega]
    · have hne : ¬ a.toNat < c.toNat := by omega
      have hne2 : ¬ c.toNat < a.toNat := by omega
      simp [lexLe, hne, hne2]
      exact lexLe_trans as bs cs hrec1 hrec2

instance : IsTotal String (fun a b => strLe a b = true) :=
  ⟨fun a b => lexLe_total a.data b.data⟩

instance : IsTrans String (fun a b => strLe a b = true) :=
  ⟨fun a b c => lexLe_trans a.data b.data c.data⟩

theorem dge_total (a b : PFloat) : PFloat.dge a b = true ∨ PFloat.dge b a = true := by
  cases a <;> cases b <;> simp [PFloat.dge] <;> exact le_total _ _

theorem dge_trans {a b c : PFloat} (hab : PFloat.dge a b = true)
    (hbc : PFloat.dge b c = true) : PFloat.dge a c = true := by
  cases a <;> cases b <;> cases c <;> simp_all [PFloat.dge] <;> linarith

instance : IsTotal RRow rateGeR := ⟨fun a b => dge_total a.rate b.rate⟩

instance : IsTrans RRow rateGeR := ⟨fun _ _ _ => dge_trans⟩

instance : IsTotal BRow salesGeB := ⟨fun a b => le_total b.sales a.sales⟩

instance : IsTrans BRow salesGeB := ⟨fun _ _ _ h1 h2 => le_trans h2 h1⟩

theorem sortStr_mem {l : List String} {x : String} : x ∈ sortStr l ↔ x ∈ l := by
  unfold sortStr
  exact List.mem_insertionSort _

theorem groupbyKey_spec {rows : List Row} {key : Row → String} {p : String × List Row}
    (hp : p ∈ groupbyKey rows key) :
    p.2 = rows.filter (fun r => key r == p.1) ∧ p.2 ≠ [] := by
  unfold groupbyKey at hp
  rcases List.mem_map.mp hp with ⟨k, hk, hpk⟩
  have hk2 : k ∈ (rows.map key).dedup := sortStr_mem.mp hk
  have hk3 : k ∈ rows.map key := List.mem_dedup.mp hk2
  rcases List.mem_map.mp hk3 with ⟨r, hr, hkr⟩
  subst hpk
  refine ⟨rfl, ?_⟩
  intro hnil
  have hrf : r ∈ rows.filter (fun r => key r == k) :=
    List.mem_filter.mpr ⟨hr, by simp [hkr]⟩
  simp only at hnil
  rw [hnil] at hrf
  exact (List.not_mem_nil r) hrf

theorem setChanges_mem {prev : Option MRow} {l : List MRow} {r : MRow}
    (h : r ∈ setChanges prev l) :
    ∃ b ∈ l, r.month = b.month ∧ r.sales = b.sales ∧ r.profit = b.profit ∧
      r.orders = b.orders ∧ r.quantity = b.quantity := by
  induction l generalizing prev with
  | nil => simp [setChanges] at h
  | cons b rest ih =>
    rw [setChanges.eq_def] at h
    rcases List.mem_cons.mp h with h | h
    · subst h
      exact ⟨b, List.mem_cons_self b rest, rfl, rfl, rfl, rfl, rfl⟩
    · rcases ih h with ⟨b2, hb2, hps⟩
      exact ⟨b2, List.mem_cons_of_mem b hb2, hps⟩

theorem sortStr_dedup_spec (l : List String) :
    (sortStr l.dedup).Pairwise (fun a b => strLe a b = true) ∧
    (sortStr l.dedup).Nodup ∧ ∀ x, x ∈ sortStr l.dedup ↔ x ∈ l := by
  refine ⟨List.sorted_insertionSort _ _, ?_, ?_⟩
  · exact ((List.perm_insertionSort _ _).nodup_iff).mpr l.nodup_dedup
  · intro x
    rw [sortStr_mem]
    exact List.mem_dedup

/-- Claim C10: for every prepared/filtered view and every availability-flag set,
the KPI dictionary of `calculate_kpis` carries the same fixed set of nine keys
(total_sales, total_profit, total_orders, total_customers, total_quantity,
avg_order_value, profit_margin, avg_discount, row_count) — captured here by the
fixed field set of the `KPIs` record, which mirrors the dict literal of lines
21-31 (later lines only reassign existing keys) — and `row_count` always equals
the number of rows of the view, whatever the role mapping. -/
theorem claim_C10 (df : DataFrame) (options : FilterOptions) :
    (calculate_kpis df options).row_count = df.rows.length := rfl

/-- Claim C1: when the profit role is unmapped, every filtered view built from
the prepared data has no `_profit` column, the availability flag `has_profit`
is reported false (the "withheld" signal), and the KPI total profit and profit
margin keep their untouched zero defaults — no profit value is ever computed
from data. -/
theorem claim_C1 (P : PandasPrims) (raw : List RawRow) (m : Mapping)
    (sd ed : Option ℤ) (cats regs segs : Option (List String))
    (options : FilterOptions) (h : m.profit = none) :
    (get_filter_options (filter_data (prepare_data P raw m) sd ed cats regs segs)).has_profit
      = false ∧
    (calculate_kpis (filter_data (prepare_data P raw m) sd ed cats regs segs)
      options).total_profit = 0 ∧
    (calculate_kpis (filter_data (prepare_data P raw m) sd ed cats regs segs)
      options).profit_margin = 0 := by
  have hc : (filter_data (prepare_data P raw m) sd ed cats regs segs).cols.profit = false := by
    simp [filter_data, prepare_data, h]
  refine ⟨?_, ?_, ?_⟩ <;> simp [get_filter_options, calculate_kpis, hc]

def primsW : PandasPrims := ⟨fun _ => none, fun _ => "", fun _ => none⟩

def mC1 : Mapping :=
  { date := none, sales := some "Revenue", profit := none, quantity := none,
    discount := none, category := none, customer := none, order_id := none,
    region := none, segment := none, product := none, returned := none }

def rawC1 : List RawRow := [[("Revenue", Cell.num 7)]]

theorem claim_C1_witness :
    (get_filter_options (filter_data (prepare_data primsW rawC1 mC1)
      none none none none none)).has_profit = false ∧
    (calculate_kpis (filter_data (prepare_data primsW rawC1 mC1) none none none none none)
      (get_filter_options (prepare_data primsW rawC1 mC1))).total_profit = 0 ∧
    (calculate_kpis (filter_data (prepare_data primsW rawC1 mC1) none none none none none)
      (get_filter_options (prepare_data primsW rawC1 mC1))).profit_margin = 0 :=
  claim_C1 primsW rawC1 mC1 none none none none none
    (get_filter_options (prepare_data primsW rawC1 mC1)) rfl

/-- Claim C9: an empty or absent allow-list is the identity on its dimension —
`filter_data` with `some []` equals `filter_data` with `none` for each of
categories/regions/segments, and a fully unset filter returns the input
unchanged (an unset filter never empties the result by itself). -/
theorem claim_C9 (df : DataFrame) (sd ed : Option ℤ)
    (cats regs segs : Option (List String)) :
    filter_data df sd ed (some []) regs segs = filter_data df sd ed none regs segs ∧
    filter_data df sd ed cats (some []) segs = filter_data df sd ed cats none segs ∧
    filter_data df sd ed cats regs (some []) = filter_data df sd ed cats regs none ∧
    filter_data df none none none none none = df ∧
    filter_data df none none (some []) (some []) (some []) = df :=
  ⟨rfl, rfl, rfl, rfl, rfl⟩

def dfC4 : DataFrame :=
  { cols :=
      { cols0 with
        sales := true,
        profit := true,
        quantity := true,
        discount := true,
        customer := true,
        order_id := true },
    rows := [] }

/-- Claim C4 (code check at the failing input): for the empty filtered view with
the discount role mapped, every KPI field is its zero default EXCEPT
`avg_discount`, which is the pandas mean of an empty series times 100 — NaN,
not 0. This exhibits the divergence between the code and the claim that every
KPISet field of the empty view is a zero default. -/
theorem claim_C4_code_bug :
    (calculate_kpis dfC4 (get_filter_options dfC4)).row_count = 0 ∧
    (calculate_kpis dfC4 (get_filter_options dfC4)).total_sales = 0 ∧
    (calculate_kpis dfC4 (get_filter_options dfC4)).total_profit = 0 ∧
    (calculate_kpis dfC4 (get_filter_options dfC4)).total_orders = 0 ∧
    (calculate_kpis dfC4 (get_filter_options dfC4)).total_customers = 0 ∧
    (calculate_kpis dfC4 (get_filter_options dfC4)).total_quantity = 0 ∧
    (calculate_kpis dfC4 (get_filter_options dfC4)).avg_order_value = 0 ∧
    (calculate_kpis dfC4 (get_filter_options dfC4)).profit_margin = 0 ∧
    (calculate_kpis dfC4 (get_filter_options dfC4)).avg_discount = PFloat.nan ∧
    PFloat.nan ≠ PFloat.fin 0 :=
  ⟨rfl, rfl, rfl, rfl, rfl, rfl, rfl, rfl, rfl, by simp⟩

theorem mem_of_ite_filter {c : Prop} [Decidable c] {p : Row → Bool} {l : List Row}
    {r : Row} (h : r ∈ if c then l.filter p else l) : r ∈ l := by
  split at h
  · exact List.mem_of_mem_filter h
  · exact h

theorem allowStage_subset {hasCol : Bool} {sel : Option (List String)}
    {get : Row → String} {rows : List Row} {r : Row}
    (h : r ∈ allowStage hasCol sel get rows) : r ∈ rows :=
  mem_of_ite_filter h

theorem dateEndStage_subset {hasDate : Bool} {ed : Option ℤ} {rows : List Row}
    {r : Row} (h : r ∈ dateEndStage hasDate ed rows) : r ∈ rows := by
  cases ed with
  | none => exact h
  | some e => exact mem_of_ite_filter h

/-- Claim C8: the date bounds of `filter_data` are inclusive (a row whose parsed
date satisfies both bounds, with non-strict comparisons, survives the
date-only filter); a row with a null parsed date is excluded as soon as any
date bound is supplied; and when the `_date` column is absent the date filter
is a no-op rather than an error. -/
theorem claim_C8 (df : DataFrame) (sd ed : Option ℤ)
    (cats regs segs : Option (List String)) (r : Row) :
    (r ∈ df.rows → ∀ d : ℤ, r.date = some d →
      (∀ s, sd = some s → s ≤ d) → (∀ e, ed = some e → d ≤ e) →
      r ∈ (filter_data df sd ed none none none).rows) ∧
    (df.cols.date = true → r.date = none → sd ≠ none ∨ ed ≠ none →
      r ∉ (filter_data df sd ed cats regs segs).rows) ∧
    (df.cols.date = false → filter_data df sd ed none none none = df) := by
  refine ⟨?_, ?_, ?_⟩
  · intro hmem d hd hs he
    have hstart : r ∈ dateStartStage df.cols.date sd df.rows := by
      cases sd with
      | none => exact hmem
      | some s =>
        have hge : geStart s r = true := by
          simp only [geStart, hd]
          exact decide_eq_true (hs s rfl)
        by_cases hdate : df.cols.date <;>
          simp [dateStartStage, hdate, List.mem_filter, hmem, hge]
    have hend : ∀ l : List Row, r ∈ l → r ∈ dateEndStage df.cols.date ed l := by
      intro l hl
      cases ed with
      | none => exact hl
      | some e =>
        have hle : leEnd e r = true := by
          simp only [leEnd, hd]
          exact decide_eq_true (he e rfl)
        by_cases hdate : df.cols.date <;>
          simp [dateEndStage, hdate, List.mem_filter, hl, hle]
    simpa [filter_data, allowStage, listTruthy] using hend _ hstart
  · intro hdate hnone hbound hmem
    simp only [filter_data] at hmem
    have h2 := dateEndStage_subset (allowStage_subset (allowStage_subset
      (allowStage_subset hmem)))
    rcases hbound with hsd | hed
    · rcases Option.ne_none_iff_exists.mp hsd with ⟨s, hss⟩
      rw [← hss] at h2
      rw [show dateStartStage df.cols.date (some s) df.rows
          = df.rows.filter (geStart s) by simp [dateStartStage, hdate]] at h2
      have := (List.mem_filter.mp h2).2
      simp [geStart, hnone] at this
    · rcases Option.ne_none_iff_exists.mp hed with ⟨e, hee⟩
      have h3 := allowStage_subset (allowStage_subset (allowStage_subset hmem))
      rw [← hee] at h3
      rw [show dateEndStage df.cols.date (some e)
            (dateStartStage df.cols.date sd df.rows)
          = (dateStartStage df.cols.date sd df.rows).filter (leEnd e) by
          simp [dateEndStage, hdate]] at h3
      have := (List.mem_filter.mp h3).2
      simp [leEnd, hnone] at this
  · intro hdate
    cases sd <;> cases ed <;>
      simp [filter_data, dateStartStage, dateEndStage, allowStage, listTruthy, hdate]

def dfC8 : DataFrame :=
  { cols := { cols0 with date := true },
    rows := [{ row0 with date := some 7 }, { row0 with date := none, category := "X" }] }

def dfNoDate : DataFrame := { cols := cols0, rows := [row0] }

theorem claim_C8_witness :
    { row0 with date := some 7 } ∈ (filter_data dfC8 (some 5) (some 10) none none none).rows ∧
    { row0 with date := none, category := "X" } ∉
      (filter_data dfC8 (some 5) (some 10) none none none).rows ∧
    filter_data dfNoDate (some 5) (some 10) none none none = dfNoDate := by
  refine ⟨?_, ?_, ?_⟩
  · exact (claim_C8 dfC8 (some 5) (some 10) none none none _).1 (by simp [dfC8]) 7 rfl
      (by intro s hs; cases hs; norm_num) (by intro e he; cases he; norm_num)
  · exact (claim_C8 dfC8 (some 5) (some 10) none none none _).2.1 rfl rfl
      (Or.inl (by simp))
  · exact (claim_C8 dfNoDate (some 5) (some 10) none none none row0).2.2 rfl

/-- Claim C7: when the returned role is mapped, the canonical `_returned` column
exists and a row's value is true exactly when the stringified, lower-cased
source cell is one of "yes", "true", "1", "returned"; anything else — including
a null cell, which stringifies to "nan" — coerces to false. -/
theorem claim_C7 (P : PandasPrims) (raw : List RawRow) (m : Mapping) (c : String)
    (h : m.returned = some c) :
    (prepare_data P raw m).cols.returned = true ∧
    (prepare_data P raw m).rows = raw.map (prepRow P m) ∧
    (∀ rr ∈ raw,
      ((prepRow P m rr).returned = true ↔
        (lowerStr (stringifyCell (getCol rr c)) = "yes" ∨
         lowerStr (stringifyCell (getCol rr c)) = "true" ∨
         lowerStr (stringifyCell (getCol rr c)) = "1" ∨
         lowerStr (stringifyCell (getCol rr c)) = "returned"))) ∧
    (∀ rr ∈ raw, getCol rr c = Cell.null → (prepRow P m rr).returned = false) := by
  refine ⟨by simp [prepare_data, h], rfl, ?_, ?_⟩
  · intro rr _
    simp [prepRow, h, returnedTrueValues]
  · intro rr _ hnull
    simp [prepRow, h, hnull, returnedTrueValues, stringifyCell]
    decide

def mC7 : Mapping :=
  { date := none, sales := none, profit := none, quantity := none,
    discount := none, category := none, customer := none, order_id := none,
    region := none, segment := none, product := none, returned := some "Ret" }

def rawC7 : List RawRow := [[("Ret", Cell.str "YES")], [("Ret", Cell.null)]]

theorem claim_C7_witness :
    (prepare_data primsW rawC7 mC7).cols.returned = true ∧
    ((prepRow primsW mC7 [("Ret", Cell.str "YES")]).returned = true ↔
      (lowerStr (stringifyCell (getCol [("Ret", Cell.str "YES")] "Ret")) = "yes" ∨
       lowerStr (stringifyCell (getCol [("Ret", Cell.str "YES")] "Ret")) = "true" ∨
       lowerStr (stringifyCell (getCol [("Ret", Cell.str "YES")] "Ret")) = "1" ∨
       lowerStr (stringifyCell (getCol [("Ret", Cell.str "YES")] "Ret")) = "returned")) ∧
    (prepRow primsW mC7 [("Ret", Cell.null)]).returned = false := by
  obtain ⟨h1, _, h3, h4⟩ := claim_C7 primsW rawC7 mC7 "Ret" rfl
  exact ⟨h1, h3 _ (by simp [rawC7]), h4 _ (by simp [rawC7]) rfl⟩

def primsC5 : PandasPrims := ⟨fun _ => none, fun _ => "", fun _ => none⟩

def mC5 : Mapping :=
  { date := none, sales := none, profit := none, quantity := none,
    discount := none, category := some "Cat", customer := none, order_id := none,
    region := none, segment := none, product := none, returned := none }

def rawC5 : List RawRow := [[("Cat", Cell.null)], [("Cat", Cell.str "A")], [("Cat", Cell.str "")]]

/-- Claim C5 counterexample: a raw category column holding a null, "A" and the
empty string yields the filter domain ["", "A", "nan"] — the null source value
(stringified by `astype(str)` to "nan") and the empty string are NOT excluded,
contradicting the claim that category-like domains exclude null/empty source
values (which would give ["A"]). -/
theorem claim_C5_counterexample :
    (get_filter_options (prepare_data primsC5 rawC5 mC5)).categories = ["", "A", "nan"] ∧
    "nan" ∈ (get_filter_options (prepare_data primsC5 rawC5 mC5)).categories ∧
    "" ∈ (get_filter_options (prepare_data primsC5 rawC5 mC5)).categories ∧
    (get_filter_options (prepare_data primsC5 rawC5 mC5)).categories ≠ ["A"] := by
  refine ⟨?_, ?_, ?_, ?_⟩ <;> decide

/-- Claim C5 (amended): the category/region/segment domains are deduplicated and
sorted ascending over the canonical stringified values — but null/empty SOURCE
values are not excluded (`dropna` on the canonical string column is vacuous
because `astype(str)` leaves no nulls; a source null appears as the string
"nan"); min/max date ignore null parsed dates and are `None` exactly when no
valid parsed date exists. -/
theorem claim_C5_amended (df : DataFrame) :
    (df.cols.category = true →
      ((get_filter_options df).categories.Pairwise (fun a b => strLe a b = true) ∧
       (get_filter_options df).categories.Nodup ∧
       (∀ x, x ∈ (get_filter_options df).categories ↔ x ∈ df.rows.map Row.category))) ∧
    (df.cols.region = true →
      ((get_filter_options df).regions.Pairwise (fun a b => strLe a b = true) ∧
       (get_filter_options df).regions.Nodup ∧
       (∀ x, x ∈ (get_filter_options df).regions ↔ x ∈ df.rows.map Row.region))) ∧
    (df.cols.segment = true →
      ((get_filter_options df).segments.Pairwise (fun a b => strLe a b = true) ∧
       (get_filter_options df).segments.Nodup ∧
       (∀ x, x ∈ (get_filter_options df).segments ↔ x ∈ df.rows.map Row.segment))) ∧
    (df.cols.date = true →
      (((get_filter_options df).min_date = none ↔ df.rows.filterMap Row.date = []) ∧
       ((get_filter_options df).max_date = none ↔ df.rows.filterMap Row.date = []) ∧
       (∀ d, (get_filter_options df).min_date = some d →
          d ∈ df.rows.filterMap Row.date ∧ ∀ x ∈ df.rows.filterMap Row.date, d ≤ x) ∧
       (∀ d, (get_filter_options df).max_date = some d →
          d ∈ df.rows.filterMap Row.date ∧ ∀ x ∈ df.rows.filterMap Row.date, x ≤ d))) := by
  refine ⟨?_, ?_, ?_, ?_⟩
  · intro h
    simpa [get_filter_options, h] using sortStr_dedup_spec (df.rows.map Row.category)
  · intro h
    simpa [get_filter_options, h] using sortStr_dedup_spec (df.rows.map Row.region)
  · intro h
    simpa [get_filter_options, h] using sortStr_dedup_spec (df.rows.map Row.segment)
  · intro h
    simp only [get_filter_options, h, if_pos]
    refine ⟨by simp, by simp, ?_, ?_⟩
    · intro d hd
      refine ⟨List.min?_mem (fun a b => min_choice a b) hd, ?_⟩
      intro x hx
      exact (List.le_min?_iff (fun a b c => le_min_iff) hd).mp le_rfl x hx
    · intro d hd
      refine ⟨List.max?_mem (fun a b => max_choice a b) hd, ?_⟩
      intro x hx
      exact (List.max?_le_iff (fun a b c => max_le_iff) hd).mp le_rfl x hx

def dfC5W : DataFrame :=
  { cols :=
      { cols0 with
        date := true,
        category := true,
        region := true,
        segment := true },
    rows := [{ row0 with date := some 3, category := "A", region := "R", segment := "S" }] }

theorem claim_C5_witness :
    (get_filter_options dfC5W).categories.Nodup ∧
    (get_filter_options dfC5W).regions.Pairwise (fun a b => strLe a b = true) ∧
    ("S" ∈ (get_filter_options dfC5W).segments ↔ "S" ∈ dfC5W.rows.map Row.segment) ∧
    ((get_filter_options dfC5W).min_date = none ↔ dfC5W.rows.filterMap Row.date = []) := by
  refine ⟨((claim_C5_amended dfC5W).1 rfl).2.1, ((claim_C5_amended dfC5W).2.1 rfl).1,
    (((claim_C5_amended dfC5W).2.2.1 rfl).2.2) "S", ((claim_C5_amended dfC5W).2.2.2 rfl).1⟩

def dfC2 : DataFrame :=
  { cols :=
      { cols0 with
        sales := true,
        profit := true,
        category := true },
    rows := [{ row0 with category := "A", profit := 5 }] }

/-- Claim C2 counterexample: in `get_breakdown`, the per-group profit margin
`Profit / Sales * 100` is not guarded: for a category group whose sales sum is
0 (one row, sales 0, profit 5) the margin is +infinity, not 0. -/
theorem claim_C2_counterexample :
    ((get_breakdown dfC2 Dim.category "Category").getD []).map (fun b => (b.sales, b.margin))
      = [((0 : ℚ), some PFloat.pinf)] ∧
    some PFloat.pinf ≠ some (PFloat.fin 0) := by
  constructor
  · norm_num [get_breakdown, dfC2, cols0, row0, groupbyKey, sortStr, dimHas, dimGet,
      nunique, pdiv, pmul100, pround2, salesGeB, List.insertionSort, List.orderedInsert]
  · simp

/-- Claim C2 (amended): in `calculate_kpis` the zero-denominator convention does
hold — profit margin is 0 when total sales is 0 and average order value is 0
when the order total is 0. In `get_breakdown`, the per-group average order
value is always finite (every group is nonempty, so its distinct-order count is
at least 1), but the per-group profit margin is NOT guarded: for a group whose
sales sum is 0 it is NaN (when the profit sum is 0) or a signed infinity (when
the profit sum is nonzero), never the claimed 0. -/
theorem claim_C2_amended (df : DataFrame) (options : FilterOptions) (col : Dim)
    (col_name : String) :
    ((calculate_kpis df options).total_sales = 0 →
      (calculate_kpis df options).profit_margin = 0) ∧
    ((calculate_kpis df options).total_orders = 0 →
      (calculate_kpis df options).avg_order_value = 0) ∧
    (∀ bs, get_breakdown df col col_name = some bs → ∀ b ∈ bs,
      (∀ q : ℚ, b.profit = some q → b.sales = 0 →
        b.margin = some (if q = 0 then PFloat.nan
          else if 0 < q then PFloat.pinf else PFloat.ninf)) ∧
      (∀ k : ℕ, b.orders = some k → 0 < k) ∧
      (∀ v : PFloat, b.aov = some v → ∃ w : ℚ, v = PFloat.fin w)) := by
  refine ⟨?_, ?_, ?_⟩
  · intro h
    simp only [calculate_kpis] at h ⊢
    rw [h]
    simp
  · intro h
    simp only [calculate_kpis] at h ⊢
    rw [h]
    simp
  · intro bs hbs b hb
    unfold get_breakdown at hbs
    split at hbs
    · exact absurd hbs (by simp)
    · rw [Option.some_inj] at hbs
      subst hbs
      rcases List.mem_map.mp ((List.mem_insertionSort _).mp hb) with ⟨p, hp, hfb⟩
      obtain ⟨hfilt, hne⟩ := groupbyKey_spec hp
      subst hfb
      have hklen : df.cols.order_id = true → 0 < nunique (p.2.map Row.order_id) := by
        intro _
        have hmapne : p.2.map Row.order_id ≠ [] := by
          simpa using hne
        have : (p.2.map Row.order_id).dedup ≠ [] := by
          rw [ne_eq, List.dedup_eq_nil]
          exact hmapne
        simpa [nunique] using List.length_pos.mpr this
      refine ⟨?_, ?_, ?_⟩
      · intro q hq hs0
        by_cases hprof : df.cols.profit = true
        · simp only [hprof, if_true] at hq
          simp only at hs0
          rw [Option.some_inj] at hq
          subst hq
          simp only [hprof, if_true, hs0]
          rcases lt_trichotomy ((p.2.map Row.profit).sum) 0 with hlt | heq | hgt
          · simp [pdiv, pmul100, pround2, ne_of_lt hlt, not_lt.mpr hlt.le]
          · simp [pdiv, pmul100, pround2, heq]
          · simp [pdiv, pmul100, pround2, ne_of_gt hgt, hgt]
        · simp [hprof] at hq
      · intro k hk
        by_cases hord : df.cols.order_id = true
        · simp only [hord, if_true] at hk
          rw [Option.some_inj] at hk
          subst hk
          exact hklen hord
        · simp [hord] at hk
      · intro v hv
        by_cases hord : df.cols.order_id = true
        · simp only [hord, if_true] at hv
          rw [Option.some_inj] at hv
          have hkpos := hklen hord
          have hden : ((nunique (p.2.map Row.order_id) : ℕ) : ℚ) ≠ 0 := by
            exact_mod_cast Nat.pos_iff_ne_zero.mp hkpos
          rw [← hv]
          exact ⟨rnd2 ((p.2.map Row.sales).sum / (nunique (p.2.map Row.order_id) : ℚ)),
            by simp [pdiv, pround2, hden]⟩
        · simp [hord] at hv

def dfC2W : DataFrame :=
  { cols :=
      { cols0 with
        sales := true,
        profit := true,
        category := true,
        order_id := true },
    rows := [{ row0 with category := "A", profit := 5, order_id := "o1" }] }

def dfC2E : DataFrame :=
  { cols := { cols0 with sales := true }, rows := [] }

def bC2W : BRow :=
  { name := "A", sales := 0, profit := some 5, quantity := none, orders := some 1,
    customers := none, margin := some PFloat.pinf, aov := some (PFloat.fin 0) }

theorem claim_C2_witness :
    (calculate_kpis dfC2W (get_filter_options dfC2W)).profit_margin = 0 ∧
    (calculate_kpis dfC2E (get_filter_options dfC2E)).avg_order_value = 0 ∧
    bC2W.margin = some PFloat.pinf := by
  refine ⟨?_, ?_, ?_⟩
  · exact (claim_C2_amended dfC2W (get_filter_options dfC2W) Dim.category "Category").1
      (by norm_num [calculate_kpis, dfC2W, cols0, row0])
  · exact (claim_C2_amended dfC2E (get_filter_options dfC2E) Dim.category "Category").2.1
      (by norm_num [calculate_kpis, dfC2E, cols0])
  · have hbd : get_breakdown dfC2W Dim.category "Category" = some [bC2W] := by
      norm_num [get_breakdown, dfC2W, cols0, row0, bC2W, groupbyKey, sortStr, dimHas,
        dimGet, nunique, pdiv, pmul100, pround2, rnd2, salesGeB, List.insertionSort,
        List.orderedInsert]
    have hm := ((claim_C2_amended dfC2W (get_filter_options dfC2W) Dim.category
      "Category").2.2 [bC2W] hbd bC2W (by simp)).1 5 rfl rfl
    rw [hm]
    norm_num

def dfC3 : DataFrame :=
  { cols := { cols0 with date := true, sales := true },
    rows := [{ row0 with date := some 0, year_month := "2024-01", sales := 1 },
             { row0 with date := some 1, year_month := "2024-01", sales := 2 }] }

/-- Claim C3 counterexample: with date and sales mapped but order_id unmapped,
the monthly series of two rows in bucket "2024-01" carries NO orders value at
all (the orders column is simply never created) — not the claimed row-count
fallback of 2. -/
theorem claim_C3_counterexample :
    ((calculate_monthly_metrics dfC3).getD []).map (fun r => (r.month, r.orders))
      = [("2024-01", (none : Option ℕ))] ∧
    (none : Option ℕ) ≠ some 2 := by
  constructor
  · norm_num [calculate_monthly_metrics, dfC3, cols0, row0, groupbyKey, sortStr,
      nunique, setChanges, monthLeM, List.insertionSort, List.orderedInsert]
  · simp

/-- Claim C3 (amended): when date and sales are mapped, the monthly series
groups the view by the year-month bucket key (each output bucket's sales is the
sum over the rows with that key) and counts distinct orders per bucket when the
order_id role is mapped; when order_id is unmapped, however, the series carries
no orders value at all — the row-count fallback used by the KPIs is NOT applied
here. -/
theorem claim_C3_amended (df : DataFrame) (h1 : df.cols.date = true)
    (h2 : df.cols.sales = true) :
    ∃ l, calculate_monthly_metrics df = some l ∧
      ∀ r ∈ l,
        df.rows.filter (fun x => x.year_month == r.month) ≠ [] ∧
        r.sales = ((df.rows.filter (fun x => x.year_month == r.month)).map Row.sales).sum ∧
        r.profit = (if df.cols.profit = true then
            some (((df.rows.filter (fun x => x.year_month == r.month)).map Row.profit).sum)
          else none) ∧
        r.orders = (if df.cols.order_id = true then
            some (nunique ((df.rows.filter (fun x => x.year_month == r.month)).map Row.order_id))
          else none) ∧
        r.quantity = (if df.cols.quantity = true then
            some (((df.rows.filter (fun x => x.year_month == r.month)).map Row.quantity).sum)
          else none) := by
  unfold calculate_monthly_metrics
  rw [if_neg (by simp [h1, h2])]
  refine ⟨_, rfl, ?_⟩
  intro r hr
  rcases setChanges_mem hr with ⟨b, hb, hmonth, hsales, hprofit, horders, hquant⟩
  rcases List.mem_map.mp ((List.mem_insertionSort _).mp hb) with ⟨p, hp, hfb⟩
  obtain ⟨hfilt, hne⟩ := groupbyKey_spec hp
  subst hfb
  have hm2 : r.month = p.1 := by simpa using hmonth
  refine ⟨?_, ?_, ?_, ?_, ?_⟩
  · rw [hm2, ← hfilt]
    exact hne
  · rw [hm2, ← hfilt]
    simpa using hsales
  · rw [hm2, ← hfilt]
    simpa using hprofit
  · rw [hm2, ← hfilt]
    simpa using horders
  · rw [hm2, ← hfilt]
    simpa using hquant

theorem claim_C3_witness : (calculate_monthly_metrics dfC3).isSome = true := by
  obtain ⟨l, hl, -⟩ := claim_C3_amended dfC3 rfl rfl
  simp [hl]

def dfC6 : DataFrame :=
  { cols :=
      { cols0 with
        category := true,
        order_id := true,
        returned := true },
    rows := [{ row0 with category := "A", order_id := "a1" },
             { row0 with category := "A", order_id := "a2" },
             { row0 with category := "B", order_id := "b1", returned := true },
             { row0 with category := "B", order_id := "b2" }] }

def rrB : RRow :=
  { name := "B", returns := 1, total_orders := 2, sales := none, profit := none,
    rate := PFloat.fin 50 }

/-- Claim C6: with the returned role mapped, the return-rate ranking counts
returned rows and total orders per group (distinct orders, or the per-group
row-count fallback when order_id is unmapped), computes the per-group rate
`(Returns / Total Orders * 100).round(2)`, keeps only groups with at least one
return, sorts descending by rate (NaN last) and truncates to the top N; and the
concrete dataset with group A (2 orders, 0 returns) and group B (2 orders, 1
return) yields a ranking containing only B. -/
theorem claim_C6 :
    (∀ (df : DataFrame) (col : Dim) (col_name : String) (n : ℕ),
      dimHas col df.cols = true → df.cols.returned = true →
      ∃ items, get_items_by_return_rate df col col_name n = some items ∧
        items.length ≤ n ∧
        (∀ it ∈ items, 0 < it.returns) ∧
        items.Pairwise rateGeR ∧
        (∀ it ∈ items,
          df.rows.filter (fun r => dimGet col r == it.name) ≠ [] ∧
          it.returns = ((df.rows.filter (fun r => dimGet col r == it.name)).filter
            (fun r => r.returned)).length ∧
          it.total_orders = (if df.cols.order_id = true then
              nunique ((df.rows.filter (fun r => dimGet col r == it.name)).map Row.order_id)
            else (df.rows.filter (fun r => dimGet col r == it.name)).length) ∧
          it.rate = pround2 (pmul100 (pdiv (it.returns : ℚ) (it.total_orders : ℚ))))) ∧
    get_items_by_return_rate dfC6 Dim.category "Category" 10 = some [rrB] := by
  constructor
  · intro df col col_name n hdim hret
    unfold get_items_by_return_rate
    rw [if_neg (by simp [hdim, hret])]
    refine ⟨_, rfl, ?_, ?_, ?_, ?_⟩
    · exact List.length_take_le _ _
    · intro it hit
      have hit2 := (List.mem_insertionSort _).mp (List.mem_of_mem_take hit)
      have := (List.mem_filter.mp hit2).2
      simpa using this
    · exact (List.sorted_insertionSort rateGeR _).sublist (List.take_sublist _ _)
    · intro it hit
      have hit2 := (List.mem_insertionSort _).mp (List.mem_of_mem_take hit)
      have hit3 := (List.mem_filter.mp hit2).1
      rcases List.mem_map.mp hit3 with ⟨p, hp, hfb⟩
      obtain ⟨hfilt, hne⟩ := groupbyKey_spec hp
      subst hfb
      have hname : (df.rows.filter (fun r => dimGet col r ==
          (let ret := (p.2.filter (fun r => r.returned)).length;
           let tot := if df.cols.order_id = true then nunique (p.2.map Row.order_id)
             else p.2.length;
           ({ name := p.1, returns := ret, total_orders := tot,
              sales := if df.cols.sales = true then some ((p.2.map Row.sales).sum) else none,
              profit := if df.cols.profit = true then some ((p.2.map Row.profit).sum) else none,
              rate := pround2 (pmul100 (pdiv (ret : ℚ) (tot : ℚ))) } : RRow)).name))
          = p.2 := by
        simpa using hfilt.symm
      refine ⟨?_, ?_, ?_, ?_⟩
      · simp only at hname ⊢
        rw [hname]
        exact hne
      · simp only at hname ⊢
        rw [hname]
      · simp only at hname ⊢
        rw [hname]
      · simp only
  · have hcalc : get_items_by_return_rate dfC6 Dim.category "Category" 10 = some [rrB] := by
      simp [get_items_by_return_rate, dfC6, cols0, row0, rrB, groupbyKey, sortStr,
        dimHas, dimGet, nunique, rateGeR, PFloat.dge, List.insertionSort,
        List.orderedInsert, List.filter_cons]
      norm_num [pdiv, pmul100, pround2, rnd2]
    exact hcalc

theorem claim_C6_witness :
    ((get_items_by_return_rate dfC6 Dim.category "Category" 10).getD []).length ≤ 10 := by
  obtain ⟨items, heq, hlen, -, -, -⟩ := claim_C6.1 dfC6 Dim.category "Category" 10 rfl rfl
  simpa [heq] using hlen
